import Mathlib

/-!
# Verification of the SmartLog append engine

Shallow embedding of `projects/smartlog/src/smartlog_core.c` and
`projects/smartlog/src/utils.c` (plus the constants of
`include/smartlog/config.h`).

Modelling conventions:
* Machine integers are `Nat` (the C code uses `uint64_t` / `unsigned long long`
  arithmetic whose operands here never overflow 64 bits except the defensive
  snprintf bound, which we keep as the literal length check of the source).
* C strings are `Option String` at the API boundary (`none` models a NULL
  pointer); bytes are modelled as `Char`s (the repository only handles
  byte-oriented text, so `String.length` stands for `strlen`).
* The filesystem is an association list from paths to entries; POSIX syscall
  outcomes that do not follow from that state (I/O failures, short writes,
  interrupts) are supplied by an explicit fault environment `Env`, `none`
  meaning the syscall behaves according to the filesystem state.
* errno is threaded explicitly through a small state record `St`, together
  with a count of open file descriptors and the high-water mark of that count.
-/

set_option autoImplicit false
set_option maxRecDepth 100000

namespace Smartlog

/-! ## Constants from include/smartlog/config.h and <errno.h> (Linux values) -/

def SMARTLOG_MSG_MAX_LEN : Nat := 256
def SMARTLOG_PATH_MAX_LEN : Nat := 4096
def SMARTLOG_LOG_BUFFER_SZ : Nat := 1024

def errnoNoent : Nat := 2
def errnoIntr : Nat := 4
def errnoEio : Nat := 5
def errnoInval : Nat := 22
def errnoIsdir : Nat := 21
def errnoNametoolong : Nat := 36
def errnoOverflow : Nat := 75

/-- `feature_state_t` from config.h. -/
inductive feature_state_t where
  | FEATURE_DISABLED
  | FEATURE_ENABLED
  deriving DecidableEq, Repr

/-! ## Filesystem model -/

/-- An on-disk object: a regular file with byte content, or a directory. -/
inductive FsEntry where
  | file (content : List Char)
  | dir
  deriving DecidableEq, Repr

/-- The filesystem: an association list from absolute/relative path strings
to entries.  The first binding for a path wins. -/
abbrev Fs := List (String × FsEntry)

def fsLookup (fs : Fs) (p : String) : Option FsEntry :=
  match fs with
  | [] => none
  | (q, e) :: rest => if q = p then some e else fsLookup rest p

def fsRemove (fs : Fs) (p : String) : Fs :=
  match fs with
  | [] => []
  | (q, e) :: rest => if q = p then fsRemove rest p else (q, e) :: fsRemove rest p

def fsSet (fs : Fs) (p : String) (e : FsEntry) : Fs :=
  (p, e) :: fsRemove fs p

/-- `stat(2)` as determined by the filesystem state: an empty path never
resolves (POSIX: `stat("")` fails with ENOENT). -/
def statFs (fs : Fs) (p : String) : Option FsEntry :=
  if p = "" then none else fsLookup fs p

/-! ## Execution state and fault environment -/

/-- Engine-visible machine state during one append call: the filesystem,
the current `errno`, the number of descriptors currently open that the
engine opened, and the maximum that count ever reached. -/
structure St where
  fs : Fs
  errno : Nat
  openCnt : Nat
  maxOpen : Nat
  deriving DecidableEq, Repr

/-- Account for a successful `open(2)`. -/
def stOpen (st : St) : St :=
  { st with openCnt := st.openCnt + 1, maxOpen := max st.maxOpen (st.openCnt + 1) }

/-- Account for a `close(2)` (the descriptor is released even when close
reports an error, as on Linux). -/
def stClose (st : St) : St :=
  { st with openCnt := st.openCnt - 1 }

/-- Outcome of one underlying `write(2)` call inside the retry loop:
either it transferred `n` bytes (`n = 0` models the pathological
zero-progress return) or it failed with the given errno. -/
inductive WStep where
  | wrote (n : Nat)
  | wfail (e : Nat)
  deriving DecidableEq, Repr

/-- Faults for one `smartlog_fsync_parent_dir` invocation:
`openFail`/`fsyncFail`/`closeFail` give the errno of a failing
`open`/`fsync`/`close`, `none` meaning that syscall succeeds. -/
structure DirSyncFaults where
  openFail : Option Nat
  fsyncFail : Option Nat
  closeFail : Option Nat
  deriving DecidableEq, Repr

/-- No injected faults for a directory sync. -/
def noDirFaults : DirSyncFaults := ⟨none, none, none⟩

/-- The fault/oracle environment for one append call.  Each `Option Nat`
field is the errno of a failure injected at the corresponding syscall
(`none`: the syscall behaves according to the filesystem state).
`writePlan` lists the outcomes of the first underlying `write(2)` calls;
once exhausted, further writes succeed in full.  `clockFail` models the
`SMARTLOG_FAKE_CLOCK_FAIL=1` test-faults environment variable. -/
structure Env where
  clockFail : Bool
  clockNs : Nat
  pid : Nat
  statFail : Option Nat
  unlinkFail : Option Nat
  renameFail : Option Nat
  rotSync : DirSyncFaults
  openFail : Option Nat
  fstatFail : Option Nat
  writePlan : List WStep
  fdatasyncFail : Option Nat
  finalSync : DirSyncFaults
  closeFail : Option Nat
  deriving DecidableEq, Repr

/-- The environment with no injected faults at all. -/
def noFaultEnv (ts pid : Nat) : Env :=
  { clockFail := false, clockNs := ts, pid := pid,
    statFail := none, unlinkFail := none, renameFail := none,
    rotSync := noDirFaults, openFail := none, fstatFail := none,
    writePlan := [], fdatasyncFail := none, finalSync := noDirFaults,
    closeFail := none }

/-- Fault environment for C10: an injected fstat failure `e` plus an
injected cleanup-close failure `e'`. -/
def c10EnvFstat (e e' : Nat) : Env :=
  { noFaultEnv 5 7 with fstatFail := some e, closeFail := some e' }

/-- Fault environment for C10: a zero-progress write (an I/O failure with
original errno `EIO`) plus an injected cleanup-close failure `e'`. -/
def c10EnvWrite (e' : Nat) : Env :=
  { noFaultEnv 5 7 with writePlan := [WStep.wrote 0], closeFail := some e' }

/-- Fault environment for C10: an injected fdatasync failure `e` plus an
injected cleanup-close failure `e'`. -/
def c10EnvFdatasync (e e' : Nat) : Env :=
  { noFaultEnv 5 7 with fdatasyncFail := some e, closeFail := some e' }

/-- Fault environment for C10: an injected parent-directory-fsync failure
`e` plus an injected cleanup-close failure `e'`. -/
def c10EnvDirsync (e e' : Nat) : Env :=
  { noFaultEnv 5 7 with finalSync := ⟨none, some e, none⟩, closeFail := some e' }

/-! ## utils.c: smartlog_timestamp_ns -/

/-- `smartlog_timestamp_ns` (utils.c).  Under the test-faults build with
`SMARTLOG_FAKE_CLOCK_FAIL=1` it sets `errno = EIO` and returns 0;
otherwise it returns the clock reading. -/
def smartlog_timestamp_ns (env : Env) (st : St) : Nat × St :=
  if env.clockFail then (0, { st with errno := errnoEio })
  else (env.clockNs, st)

/-! ## utils.c: smartlog_write_all -/

/-- The retry loop of `smartlog_write_all`: `sched` drives the outcomes of
the underlying `write(2)` calls (once exhausted, writes succeed in full),
`rem` is the not-yet-written tail of the buffer, `acc` the bytes already
transferred to the file, `en` the current errno.  Returns the bytes the
file received, the final errno, and whether the function returned 0. -/
def write_all_go (sched : List WStep) (rem acc : List Char) (en : Nat) :
    List Char × Nat × Bool :=
  match rem with
  | [] => (acc, en, true)
  | _ :: _ =>
    match sched with
    | [] => (acc ++ rem, en, true)
    | .wfail e :: rest =>
      if e = errnoIntr then write_all_go rest rem acc e
      else (acc, e, false)
    | .wrote n :: rest =>
      if n = 0 then (acc, errnoEio, false)
      else write_all_go rest (rem.drop n) (acc ++ rem.take n) en

/-- `smartlog_write_all` (utils.c): sets `errno = 0`, then loops until the
whole buffer is written, retrying interrupted writes, failing on any other
error and treating a zero-byte write as `EIO`. -/
def smartlog_write_all (sched : List WStep) (buf : List Char) :
    List Char × Nat × Bool :=
  write_all_go sched buf [] 0

/-! ## utils.c: smartlog_fsync_parent_dir -/

/-- Index of the last `'/'` in a character list (`strrchr(temp, '/')`). -/
def lastSlashIdx (l : List Char) : Option Nat :=
  match l.reverse.findIdx? (fun c => c = '/') with
  | none => none
  | some j => some (l.length - 1 - j)

/-- The parent-directory computation of `smartlog_fsync_parent_dir`:
no slash gives `"."`, a leading slash gives `"/"`, otherwise the prefix up
to the last slash (with the source's defensive fallback to `"."` for an
empty prefix, unreachable since the slash index is at least 1 there). -/
def parentDir (p : String) : String :=
  match lastSlashIdx p.data with
  | none => "."
  | some 0 => "/"
  | some i =>
    let pre : String := ⟨p.data.take i⟩
    if pre = "" then "." else pre

/-- Account for one `close(2)` of a descriptor the engine opened: the
descriptor is released either way; a failing close additionally sets
`errno` and reports failure. -/
def closeFdM (cf : Option Nat) (st : St) : Bool × St :=
  match cf with
  | some e => (false, stClose { st with errno := e })
  | none => (true, stClose st)

/-- `smartlog_fsync_parent_dir` (utils.c): validate the path, compute the
parent directory, open it read-only, fsync it, close it.  The directory
open/fsync/close outcomes are driven by the per-invocation fault record
`d` (the model's filesystem has no notion of a failing directory sync).
On an fsync failure the source saves errno, closes, and restores errno. -/
def smartlog_fsync_parent_dir (d : DirSyncFaults) (path : Option String)
    (st : St) : Bool × St :=
  match path with
  | none => (false, { st with errno := errnoInval })
  | some p =>
    if p = "" then (false, { st with errno := errnoInval })
    else if SMARTLOG_PATH_MAX_LEN ≤ p.length then
      (false, { st with errno := errnoNametoolong })
    else
      let dir_path := parentDir p
      match d.openFail with
      | some e => (false, { st with errno := e })
      | none =>
        let st1 := stOpen st
        match d.fsyncFail with
        | some e => (false, stClose { st1 with errno := e })
        | none =>
          match d.closeFail with
          | some e => (false, stClose { st1 with errno := e })
          | none =>
            let _ := dir_path
            (true, stClose st1)

/-! ## smartlog_core.c: message truncation and line formatting -/

/-- The truncation step of `smartlog_write_log_entry` STEP 2: a message of
more than `SMARTLOG_MSG_MAX_LEN` bytes is replaced by its first
`SMARTLOG_MSG_MAX_LEN - 3` bytes followed by `"..."`. -/
def truncate_msg (m : List Char) : List Char :=
  if m.length > SMARTLOG_MSG_MAX_LEN then
    m.take (SMARTLOG_MSG_MAX_LEN - 3) ++ "...".data
  else m

/-- The `snprintf` format of STEP 2:
`"[%llu ns] [PID = %ld] [MESSAGE = %s]\n"`. -/
def format_line (time_ns pid : Nat) (msg : List Char) : List Char :=
  ("[" ++ toString time_ns ++ " ns] [PID = " ++ toString pid
    ++ "] [MESSAGE = ").data ++ msg ++ "]\n".data

/-! ## smartlog_core.c: smartlog_rotate_if_needed -/

/-- The tail of `smartlog_rotate_if_needed` after the backup unlink
(smartlog_core.c lines 96–121): `rename(file_path, new_path)`, the
durable-mode parent-directory sync, and the update of the
`file1_exist`/`stat1_errno` out-parameters. -/
def rotate_rename_phase (env : Env) (file_path new_path : String)
    (durable : feature_state_t) (file1_exist_ok : Bool) (stat1_errno : Nat)
    (st1 : St) : (Nat × Bool × Nat) × St :=
  match env.renameFail with
  | some e => ((1, file1_exist_ok, stat1_errno), { st1 with errno := e })
  | none =>
    match fsLookup st1.fs file_path with
    | none => ((1, file1_exist_ok, stat1_errno), { st1 with errno := errnoNoent })
    | some ent =>
      let st2 := { st1 with
        fs := fsSet (fsRemove st1.fs file_path) new_path ent }
      if durable = feature_state_t.FEATURE_ENABLED then
        match smartlog_fsync_parent_dir env.rotSync (some file_path) st2 with
        | (false, st3) => ((1, file1_exist_ok, stat1_errno), st3)
        | (true, st3) => ((0, false, errnoNoent), st3)
      else ((0, false, errnoNoent), st2)

/-- `smartlog_rotate_if_needed` (smartlog_core.c).  Arguments mirror the C
signature: `fstat_old_size` is `fstat_old->st_size`; `file1_exist_ok`
is `*file1_exist == 0` (the earlier `stat` succeeded); `stat1_errno` is
`*stat1_errno`.  Returns `((ret, file1_exist_ok, stat1_errno), st)` with
the out-parameters as the source leaves them. -/
def smartlog_rotate_if_needed (env : Env) (file_path : String)
    (durable max_bytes_config : feature_state_t) (max_byte_val : Nat)
    (log_len : Nat) (fstat_old_size : Nat)
    (file1_exist_ok : Bool) (stat1_errno : Nat) (st : St) :
    (Nat × Bool × Nat) × St :=
  if max_bytes_config ≠ feature_state_t.FEATURE_ENABLED ∨ file1_exist_ok ≠ true then
    ((0, file1_exist_ok, stat1_errno), st)
  else
    let new_file_size := fstat_old_size + log_len
    if max_byte_val ≥ new_file_size then
      ((0, file1_exist_ok, stat1_errno), st)
    else
      -- snprintf(new_path, sizeof new_path, "%s.1", file_path) returns len+2
      if SMARTLOG_PATH_MAX_LEN ≤ file_path.length + 2 then
        ((1, file1_exist_ok, stat1_errno), { st with errno := errnoNametoolong })
      else
        let new_path := file_path ++ ".1"
        -- unlink(new_path); ENOENT (no backup) is ignored
        let unlinked : Except St St :=
          match env.unlinkFail with
          | some e =>
            if e = errnoNoent then Except.ok { st with errno := e }
            else Except.error { st with errno := e }
          | none =>
            match fsLookup st.fs new_path with
            | some _ => Except.ok { st with fs := fsRemove st.fs new_path }
            | none => Except.ok { st with errno := errnoNoent }
        match unlinked with
        | Except.error stE => ((1, file1_exist_ok, stat1_errno), stE)
        | Except.ok st1 =>
          rotate_rename_phase env file_path new_path durable
            file1_exist_ok stat1_errno st1

/-! ## smartlog_core.c: smartlog_write_log_entry -/

/-- The semantics of `open(path, O_WRONLY | O_CREAT | O_APPEND, 0640)` as
determined by the filesystem state: an empty path fails with `ENOENT`, a
directory with `EISDIR`; an absent file is created empty.  Returns the
content the descriptor appends to, and the filesystem after the open. -/
def openAppendFs (fs : Fs) (p : String) : Except Nat (List Char × Fs) :=
  if p = "" then Except.error errnoNoent
  else
    match fsLookup fs p with
    | some FsEntry.dir => Except.error errnoIsdir
    | some (FsEntry.file c) => Except.ok (c, fs)
    | none => Except.ok ([], fsSet fs p (FsEntry.file []))

/-- The cleanup idiom of the source's error paths after `open` succeeded:
`saved_errno = errno; close(fd); errno = saved_errno;`. -/
def closeRestoringErrno (cf : Option Nat) (st : St) : St :=
  let saved := st.errno
  let st1 := (closeFdM cf st).2
  { st1 with errno := saved }

/-- STEPs 7–8 of `smartlog_write_log_entry`: in durable mode `fdatasync`
the file and sync the parent directory (each failure saving errno across
the cleanup close), then close the log descriptor, reporting a close
failure. -/
def write_entry_sync_close (env : Env) (p : String)
    (durable : feature_state_t) (st6 : St) : Nat × St :=
  let fin : St → Nat × St := fun stf =>
    match closeFdM env.closeFail stf with
    | (false, stC) => (1, stC)
    | (true, stC) => (0, stC)
  if durable = feature_state_t.FEATURE_ENABLED then
    match env.fdatasyncFail with
    | some e =>
      (1, closeRestoringErrno env.closeFail { st6 with errno := e })
    | none =>
      match smartlog_fsync_parent_dir env.finalSync (some p) st6 with
      | (false, st7) =>
        (1, closeRestoringErrno env.closeFail st7)
      | (true, st7) => fin st7
  else fin st6

/-- STEPs 4–8 of `smartlog_write_log_entry`: open-or-create the log file,
fstat-check a freshly created file, write the formatted entry, optionally
sync data and parent directory, and close.  `file1_exist_ok2` and
`stat1_errno2` are the values of `file1_exist`/`stat1_errno` after the
rotation step. -/
def write_entry_open_phase (env : Env) (p : String)
    (durable : feature_state_t) (file1_exist_ok2 : Bool) (stat1_errno2 : Nat)
    (log_line : List Char) (st4 : St) : Nat × St :=
  -- STEP 4: open or create the log file
  match env.openFail with
  | some e => (1, { st4 with errno := e })
  | none =>
    match openAppendFs st4.fs p with
    | Except.error e => (1, { st4 with errno := e })
    | Except.ok (cur, fs5) =>
      let st5 := stOpen { st4 with fs := fs5 }
      -- STEP 5: fstat check for a freshly created file
      match (if file1_exist_ok2 = false ∧ stat1_errno2 = errnoNoent
             then env.fstatFail else none) with
      | some e =>
        (1, closeRestoringErrno env.closeFail { st5 with errno := e })
      | none =>
        -- STEP 6: write the entry
        let wres := smartlog_write_all env.writePlan log_line
        let st6 := { st5 with
          fs := fsSet st5.fs p (FsEntry.file (cur ++ wres.1)),
          errno := wres.2.1 }
        if wres.2.2 = false then
          (1, closeRestoringErrno env.closeFail st6)
        else
          -- STEPs 7–8
          write_entry_sync_close env p durable st6

/-- `smartlog_write_log_entry` (smartlog_core.c), the append engine.
`file_path`/`msg` are `none` for NULL pointers; `fs0`/`errno0` are the
filesystem and errno when the call starts.  Returns the C return value
(0 success, 1 error) and the final machine state. -/
def smartlog_write_log_entry (env : Env) (file_path msg : Option String)
    (durable max_bytes_config : feature_state_t) (max_byte_val : Nat)
    (fs0 : Fs) (errno0 : Nat) : Nat × St :=
  let st0 : St := { fs := fs0, errno := errno0, openCnt := 0, maxOpen := 0 }
  match file_path, msg with
  | none, _ => (1, { st0 with errno := errnoInval })
  | some _, none => (1, { st0 with errno := errnoInval })
  | some p, some m =>
    -- STEP 1: validate message, stat the path
    if m = "" then (1, { st0 with errno := errnoInval })
    else
      let st1 := { st0 with errno := 0 }
      let statRes : Option FsEntry × Bool × Nat :=
        match env.statFail with
        | some e => (none, false, e)
        | none =>
          match statFs st1.fs p with
          | some ent => (some ent, true, 0)
          | none => (none, false, errnoNoent)
      let statEnt := statRes.1
      let file1_exist_ok := statRes.2.1
      let stat1_errno := statRes.2.2
      let st2 := { st1 with errno := stat1_errno }
      if file1_exist_ok ∧ statEnt = some FsEntry.dir then
        (1, { st2 with errno := errnoIsdir })
      else if file1_exist_ok = false ∧ stat1_errno ≠ errnoNoent then
        (1, st2)
      else
        -- STEP 2: build the formatted log entry
        let msgT := truncate_msg m.data
        let tsres := smartlog_timestamp_ns env st2
        let time_ns := tsres.1
        let st3 := tsres.2
        let log_line := format_line time_ns env.pid msgT
        let log_len := log_line.length
        if SMARTLOG_LOG_BUFFER_SZ ≤ log_len then
          (1, { st3 with errno := errnoOverflow })
        else
          -- STEP 3: rotation
          let statSize : Nat :=
            match statEnt with
            | some (FsEntry.file c) => c.length
            | _ => 0
          let rotres := smartlog_rotate_if_needed env p durable max_bytes_config
            max_byte_val log_len statSize file1_exist_ok stat1_errno st3
          let file1_exist_ok2 := rotres.1.2.1
          let stat1_errno2 := rotres.1.2.2
          let st4 := rotres.2
          if rotres.1.1 ≠ 0 then (1, st4)
          else
            -- STEPs 4–8
            write_entry_open_phase env p durable file1_exist_ok2 stat1_errno2
              log_line st4

/-! ## Helper lemmas on the filesystem model -/

@[simp] theorem fsLookup_fsSet_self (fs : Fs) (p : String) (e : FsEntry) :
    fsLookup (fsSet fs p e) p = some e := by
  simp [fsSet, fsLookup]

theorem fsLookup_fsRemove (fs : Fs) (p q : String) :
    fsLookup (fsRemove fs p) q = if p = q then none else fsLookup fs q := by
  induction fs with
  | nil => simp [fsRemove, fsLookup]
  | cons hd tl ih =>
    obtain ⟨r, e⟩ := hd
    simp only [fsRemove]
    by_cases hrp : r = p
    · subst hrp
      rw [if_pos rfl, ih]
      by_cases hrq : r = q
      · simp [hrq]
      · simp [fsLookup, hrq]
    · rw [if_neg hrp]
      by_cases hrq : r = q
      · have hpq : ¬ p = q := fun h => hrp (hrq ▸ h.symm)
        simp [fsLookup, hrq, hpq]
      · simp [fsLookup, hrq, ih]

theorem fsLookup_fsSet_ne (fs : Fs) (p q : String) (e : FsEntry) (h : p ≠ q) :
    fsLookup (fsSet fs p e) q = fsLookup fs q := by
  simp [fsSet, fsLookup, h, fsLookup_fsRemove]

/-! ## Helper lemmas on the write retry loop -/

theorem write_all_go_ok (sched : List WStep) :
    ∀ rem acc en, (write_all_go sched rem acc en).2.2 = true →
      (write_all_go sched rem acc en).1 = acc ++ rem := by
  induction sched with
  | nil =>
    intro rem acc en h
    cases rem <;> simp [write_all_go]
  | cons s rest ih =>
    intro rem acc en h
    cases rem with
    | nil => simp [write_all_go]
    | cons c cs =>
      cases s with
      | wfail e =>
        by_cases he : e = errnoIntr
        · rw [write_all_go] at h ⊢
          simp only [he, if_pos rfl] at h ⊢
          exact ih _ _ _ h
        · rw [write_all_go] at h
          simp [he] at h
      | wrote n =>
        by_cases hn : n = 0
        · rw [write_all_go] at h
          simp [hn] at h
        · rw [write_all_go] at h ⊢
          rw [if_neg hn] at h ⊢
          rw [ih _ _ _ h, List.append_assoc, List.take_append_drop]

theorem write_all_go_en_irrel (sched : List WStep) :
    ∀ rem acc en en',
      (write_all_go sched rem acc en).1 = (write_all_go sched rem acc en').1 ∧
      (write_all_go sched rem acc en).2.2 = (write_all_go sched rem acc en').2.2 := by
  induction sched with
  | nil => intro rem acc en en'; cases rem <;> simp [write_all_go]
  | cons s rest ih =>
    intro rem acc en en'
    cases rem with
    | nil => simp [write_all_go]
    | cons c cs =>
      cases s with
      | wfail e =>
        by_cases he : e = errnoIntr
        · rw [write_all_go, write_all_go]
          exact ⟨rfl, rfl⟩
        · rw [write_all_go, write_all_go]
          exact ⟨rfl, rfl⟩
      | wrote n =>
        by_cases hn : n = 0
        · rw [write_all_go, write_all_go]
          rw [if_pos hn, if_pos hn]
          exact ⟨rfl, rfl⟩
        · rw [write_all_go, write_all_go]
          rw [if_neg hn, if_neg hn]
          exact ih _ _ _ _

/-- C7. `smartlog_write_all` writes the entire buffer: on success the file
receives exactly the buffer, continuing after each partial write from the
current offset; a `write` failing with `EINTR` is retried transparently
(same bytes written and same success status as if it had not happened);
a `write` returning zero bytes of progress makes the call fail at once
with `errno = EIO` and is never retried.
-/
theorem C7_write_all_contract (sched : List WStep) (buf rem acc : List Char)
    (en : Nat) :
    ((smartlog_write_all sched buf).2.2 = true →
      (smartlog_write_all sched buf).1 = buf)
    ∧ (rem ≠ [] →
        (write_all_go (WStep.wfail errnoIntr :: sched) rem acc en).1
            = (write_all_go sched rem acc en).1
        ∧ (write_all_go (WStep.wfail errnoIntr :: sched) rem acc en).2.2
            = (write_all_go sched rem acc en).2.2)
    ∧ (rem ≠ [] →
        write_all_go (WStep.wrote 0 :: sched) rem acc en
          = (acc, errnoEio, false)) := by
  refine ⟨?_, ?_, ?_⟩
  · intro h
    simpa using write_all_go_ok sched buf [] 0 h
  · intro hrem
    cases rem with
    | nil => exact absurd rfl hrem
    | cons c cs =>
      rw [write_all_go]
      simp only [if_pos rfl]
      exact write_all_go_en_irrel sched (c :: cs) acc errnoIntr en
  · intro hrem
    cases rem with
    | nil => exact absurd rfl hrem
    | cons c cs =>
      rw [write_all_go]
      simp

/-- Witness for C7 at concrete inputs: a schedule with a partial write, an
interrupt, another partial write and then free success transfers the whole
buffer; a leading `EINTR` is invisible; a zero-progress write fails with
`EIO`. -/
theorem C7_write_all_contract_witness :
    ((smartlog_write_all [WStep.wrote 2, WStep.wfail errnoIntr, WStep.wrote 1]
        "hello".data).2.2 = true →
      (smartlog_write_all [WStep.wrote 2, WStep.wfail errnoIntr, WStep.wrote 1]
        "hello".data).1 = "hello".data)
    ∧ ("lo".data ≠ [] →
        (write_all_go (WStep.wfail errnoIntr :: [WStep.wrote 1]) "lo".data
            "hel".data 0).1
          = (write_all_go [WStep.wrote 1] "lo".data "hel".data 0).1
        ∧ (write_all_go (WStep.wfail errnoIntr :: [WStep.wrote 1]) "lo".data
            "hel".data 0).2.2
          = (write_all_go [WStep.wrote 1] "lo".data "hel".data 0).2.2)
    ∧ ("lo".data ≠ [] →
        write_all_go (WStep.wrote 0 :: [WStep.wrote 1]) "lo".data "hel".data 0
          = ("hel".data, errnoEio, false)) :=
  C7_write_all_contract [WStep.wrote 2, WStep.wfail errnoIntr, WStep.wrote 1]
    "hello".data "lo".data "hel".data 0

/-! ## Helper lemmas on rotation -/

theorem backup_ne_self (p : String) : ¬ (p ++ ".1" = p) := by
  intro h
  have h2 := congrArg String.length h
  rw [String.length_append] at h2
  have h3 : (".1" : String).length = 2 := rfl
  omega

/-- Characterization of a triggered rotation with no injected faults and
durability off: it returns 0, reports the file as no longer existing, moves
the current entry into the `.1` backup slot (discarding any previous
backup), removes the current file, and touches no other path. -/
theorem rotate_trigger_spec (env : Env) (p : String) (B L S : Nat)
    (ent : FsEntry) (stat1e : Nat) (st : St)
    (hplen : p.length + 2 < SMARTLOG_PATH_MAX_LEN)
    (hu : env.unlinkFail = none) (hr : env.renameFail = none)
    (hfile : fsLookup st.fs p = some ent)
    (htrig : B < S + L) :
    (smartlog_rotate_if_needed env p feature_state_t.FEATURE_DISABLED
        feature_state_t.FEATURE_ENABLED B L S true stat1e st).1.1 = 0
    ∧ (smartlog_rotate_if_needed env p feature_state_t.FEATURE_DISABLED
        feature_state_t.FEATURE_ENABLED B L S true stat1e st).1.2.1 = false
    ∧ fsLookup (smartlog_rotate_if_needed env p feature_state_t.FEATURE_DISABLED
        feature_state_t.FEATURE_ENABLED B L S true stat1e st).2.fs (p ++ ".1")
        = some ent
    ∧ fsLookup (smartlog_rotate_if_needed env p feature_state_t.FEATURE_DISABLED
        feature_state_t.FEATURE_ENABLED B L S true stat1e st).2.fs p = none
    ∧ ∀ q, q ≠ p → q ≠ p ++ ".1" →
        fsLookup (smartlog_rotate_if_needed env p feature_state_t.FEATURE_DISABLED
          feature_state_t.FEATURE_ENABLED B L S true stat1e st).2.fs q
          = fsLookup st.fs q := by
  have hge : ¬ (B ≥ S + L) := by omega
  have hlen2 : ¬ (SMARTLOG_PATH_MAX_LEN ≤ p.length + 2) := by omega
  have hbkp : (p ++ ".1") ≠ p := fun h => backup_ne_self p h
  cases hbk : fsLookup st.fs (p ++ ".1") with
  | some b =>
    have hlk : fsLookup (fsRemove st.fs (p ++ ".1")) p = some ent := by
      rw [fsLookup_fsRemove, if_neg hbkp, hfile]
    simp only [smartlog_rotate_if_needed, rotate_rename_phase, hu, hr, hbk,
      hlk, hge, hlen2, if_false, if_neg hge, if_neg hlen2]
    simp only [ne_eq, not_true_eq_false, or_self, if_false]
    rw [if_neg (by decide :
      ¬ (feature_state_t.FEATURE_DISABLED = feature_state_t.FEATURE_ENABLED))]
    refine ⟨rfl, rfl, ?_, ?_, ?_⟩
    · simp
    · rw [fsLookup_fsSet_ne _ _ _ _ hbkp, fsLookup_fsRemove, if_pos rfl]
    · intro q hqp hqbk
      rw [fsLookup_fsSet_ne _ _ _ _ (fun h => hqbk h.symm),
        fsLookup_fsRemove, if_neg (fun h => hqp h.symm),
        fsLookup_fsRemove, if_neg (fun h => hqbk h.symm)]
  | none =>
    simp only [smartlog_rotate_if_needed, rotate_rename_phase, hu, hr, hbk,
      hfile, hge, hlen2, if_neg hge, if_neg hlen2]
    simp only [ne_eq, not_true_eq_false, or_self, if_false]
    rw [if_neg (by decide :
      ¬ (feature_state_t.FEATURE_DISABLED = feature_state_t.FEATURE_ENABLED))]
    refine ⟨rfl, rfl, ?_, ?_, ?_⟩
    · simp
    · rw [fsLookup_fsSet_ne _ _ _ _ hbkp, fsLookup_fsRemove, if_pos rfl]
    · intro q hqp hqbk
      rw [fsLookup_fsSet_ne _ _ _ _ (fun h => hqbk h.symm),
        fsLookup_fsRemove, if_neg (fun h => hqp h.symm)]

/-- C2. Rotation boundary: with rotation configured (`max_bytes = B`)
against an existing regular file of size `S` and a pending entry of length
`L`, the rotation step renames the file away (so the write starts a fresh
file) if and only if `S + L > B`; an entry landing exactly at `B` does not
rotate, one landing at `B + 1` or more does.
-/
theorem C2_rotation_boundary (env : Env) (p : String) (B L : Nat)
    (c : List Char) (stat1e : Nat) (st : St)
    (hplen : p.length + 2 < SMARTLOG_PATH_MAX_LEN)
    (hu : env.unlinkFail = none) (hr : env.renameFail = none)
    (hfile : fsLookup st.fs p = some (FsEntry.file c)) :
    (c.length + L > B →
      (smartlog_rotate_if_needed env p feature_state_t.FEATURE_DISABLED
          feature_state_t.FEATURE_ENABLED B L c.length true stat1e st).1.1 = 0
      ∧ fsLookup (smartlog_rotate_if_needed env p feature_state_t.FEATURE_DISABLED
          feature_state_t.FEATURE_ENABLED B L c.length true stat1e st).2.fs p
          = none
      ∧ fsLookup (smartlog_rotate_if_needed env p feature_state_t.FEATURE_DISABLED
          feature_state_t.FEATURE_ENABLED B L c.length true stat1e st).2.fs
          (p ++ ".1") = some (FsEntry.file c))
    ∧ (c.length + L ≤ B →
      smartlog_rotate_if_needed env p feature_state_t.FEATURE_DISABLED
          feature_state_t.FEATURE_ENABLED B L c.length true stat1e st
        = ((0, true, stat1e), st)) := by
  constructor
  · intro htrig
    obtain ⟨h0, _, hbk, hp, _⟩ :=
      rotate_trigger_spec env p B L c.length (FsEntry.file c) stat1e st
        hplen hu hr hfile (by omega)
    exact ⟨h0, hp, hbk⟩
  · intro hle
    have hge : B ≥ c.length + L := hle
    simp only [smartlog_rotate_if_needed, if_pos hge]
    simp [reduceIte]

/-- Witness for C2 at a concrete boundary: file of 5 bytes, entry of 35
bytes.  With `max_bytes = 39` (new size 40 > 39) the file is rotated into
the backup slot; with `max_bytes = 40` (new size exactly 40) nothing
happens. -/
theorem C2_rotation_boundary_witness :
    ((smartlog_rotate_if_needed (noFaultEnv 100 42) "r.log"
        feature_state_t.FEATURE_DISABLED feature_state_t.FEATURE_ENABLED
        39 35 5 true 0
        { fs := [("r.log", FsEntry.file "aaaaa".data)], errno := 0,
          openCnt := 0, maxOpen := 0 }).1.1 = 0
      ∧ fsLookup (smartlog_rotate_if_needed (noFaultEnv 100 42) "r.log"
          feature_state_t.FEATURE_DISABLED feature_state_t.FEATURE_ENABLED
          39 35 5 true 0
          { fs := [("r.log", FsEntry.file "aaaaa".data)], errno := 0,
            openCnt := 0, maxOpen := 0 }).2.fs "r.log" = none
      ∧ fsLookup (smartlog_rotate_if_needed (noFaultEnv 100 42) "r.log"
          feature_state_t.FEATURE_DISABLED feature_state_t.FEATURE_ENABLED
          39 35 5 true 0
          { fs := [("r.log", FsEntry.file "aaaaa".data)], errno := 0,
            openCnt := 0, maxOpen := 0 }).2.fs ("r.log" ++ ".1")
          = some (FsEntry.file "aaaaa".data))
    ∧ smartlog_rotate_if_needed (noFaultEnv 100 42) "r.log"
        feature_state_t.FEATURE_DISABLED feature_state_t.FEATURE_ENABLED
        40 35 5 true 0
        { fs := [("r.log", FsEntry.file "aaaaa".data)], errno := 0,
          openCnt := 0, maxOpen := 0 }
        = ((0, true, 0),
           { fs := [("r.log", FsEntry.file "aaaaa".data)], errno := 0,
             openCnt := 0, maxOpen := 0 }) :=
  ⟨(C2_rotation_boundary (noFaultEnv 100 42) "r.log" 39 35 "aaaaa".data 0
      { fs := [("r.log", FsEntry.file "aaaaa".data)], errno := 0,
        openCnt := 0, maxOpen := 0 }
      (by decide) rfl rfl (by decide)).1 (by decide),
   (C2_rotation_boundary (noFaultEnv 100 42) "r.log" 40 35 "aaaaa".data 0
      { fs := [("r.log", FsEntry.file "aaaaa".data)], errno := 0,
        openCnt := 0, maxOpen := 0 }
      (by decide) rfl rfl (by decide)).2 (by decide)⟩

/-- C5. Single backup slot: rotation is skipped entirely when the target
file does not exist; on trigger, any pre-existing backup at `<path>.1` is
replaced — afterwards the backup slot holds exactly the previous file, the
current path is gone, and no other path is touched (so at most one backup
ever exists and rotations never chain); a removal failure of the old
backup other than "absent" aborts the rotation with that error and no
rename (absence itself, covered by the trigger case with an empty backup
slot, is not an error).
-/
theorem C5_backup_slot (env : Env) (p : String)
    (dur cfg : feature_state_t) (B L S : Nat) (ent : FsEntry)
    (e stat1e : Nat) (st : St) :
    (smartlog_rotate_if_needed env p dur cfg B L S false stat1e st
        = ((0, false, stat1e), st))
    ∧ (p.length + 2 < SMARTLOG_PATH_MAX_LEN →
       env.unlinkFail = none → env.renameFail = none →
       fsLookup st.fs p = some ent → B < S + L →
        (smartlog_rotate_if_needed env p feature_state_t.FEATURE_DISABLED
            feature_state_t.FEATURE_ENABLED B L S true stat1e st).1.1 = 0
        ∧ fsLookup (smartlog_rotate_if_needed env p
            feature_state_t.FEATURE_DISABLED feature_state_t.FEATURE_ENABLED
            B L S true stat1e st).2.fs (p ++ ".1") = some ent
        ∧ fsLookup (smartlog_rotate_if_needed env p
            feature_state_t.FEATURE_DISABLED feature_state_t.FEATURE_ENABLED
            B L S true stat1e st).2.fs p = none
        ∧ ∀ q, q ≠ p → q ≠ p ++ ".1" →
            fsLookup (smartlog_rotate_if_needed env p
              feature_state_t.FEATURE_DISABLED feature_state_t.FEATURE_ENABLED
              B L S true stat1e st).2.fs q = fsLookup st.fs q)
    ∧ (p.length + 2 < SMARTLOG_PATH_MAX_LEN →
       env.unlinkFail = some e → e ≠ errnoNoent → B < S + L →
        smartlog_rotate_if_needed env p dur feature_state_t.FEATURE_ENABLED
            B L S true stat1e st
          = ((1, true, stat1e), { st with errno := e })) := by
  refine ⟨?_, ?_, ?_⟩
  · simp [smartlog_rotate_if_needed]
  · intro hplen hu hr hfile htrig
    obtain ⟨h0, _, hbk, hp, hq⟩ :=
      rotate_trigger_spec env p B L S ent stat1e st hplen hu hr hfile htrig
    exact ⟨h0, hbk, hp, hq⟩
  · intro hplen hu he htrig
    have hge : ¬ (B ≥ S + L) := by omega
    have hlen2 : ¬ (SMARTLOG_PATH_MAX_LEN ≤ p.length + 2) := by omega
    simp only [smartlog_rotate_if_needed, hu, if_neg hge, if_neg hlen2,
      if_neg he]
    simp [he]

/-- Witness for C5: skipping when the file is absent; replacing a stale
backup `"r.log.1"` (content `"zz"`) by the rotated file; and an injected
`EACCES`-style unlink failure (errno 13) aborting the rotation. -/
theorem C5_backup_slot_witness :
    (smartlog_rotate_if_needed (noFaultEnv 100 42) "r.log"
        feature_state_t.FEATURE_DISABLED feature_state_t.FEATURE_ENABLED
        10 35 0 false 2
        { fs := [], errno := 2, openCnt := 0, maxOpen := 0 }
        = ((0, false, 2), { fs := [], errno := 2, openCnt := 0, maxOpen := 0 }))
    ∧ ((smartlog_rotate_if_needed (noFaultEnv 100 42) "r.log"
          feature_state_t.FEATURE_DISABLED feature_state_t.FEATURE_ENABLED
          39 35 5 true 0
          { fs := [("r.log", FsEntry.file "aaaaa".data),
                   ("r.log.1", FsEntry.file "zz".data)],
            errno := 0, openCnt := 0, maxOpen := 0 }).1.1 = 0
      ∧ fsLookup (smartlog_rotate_if_needed (noFaultEnv 100 42) "r.log"
          feature_state_t.FEATURE_DISABLED feature_state_t.FEATURE_ENABLED
          39 35 5 true 0
          { fs := [("r.log", FsEntry.file "aaaaa".data),
                   ("r.log.1", FsEntry.file "zz".data)],
            errno := 0, openCnt := 0, maxOpen := 0 }).2.fs ("r.log" ++ ".1")
          = some (FsEntry.file "aaaaa".data)
      ∧ fsLookup (smartlog_rotate_if_needed (noFaultEnv 100 42) "r.log"
          feature_state_t.FEATURE_DISABLED feature_state_t.FEATURE_ENABLED
          39 35 5 true 0
          { fs := [("r.log", FsEntry.file "aaaaa".data),
                   ("r.log.1", FsEntry.file "zz".data)],
            errno := 0, openCnt := 0, maxOpen := 0 }).2.fs "r.log" = none)
    ∧ smartlog_rotate_if_needed
        { noFaultEnv 100 42 with unlinkFail := some 13 } "r.log"
        feature_state_t.FEATURE_DISABLED feature_state_t.FEATURE_ENABLED
        39 35 5 true 0
        { fs := [("r.log", FsEntry.file "aaaaa".data),
                 ("r.log.1", FsEntry.file "zz".data)],
          errno := 0, openCnt := 0, maxOpen := 0 }
        = ((1, true, 0),
           { fs := [("r.log", FsEntry.file "aaaaa".data),
                    ("r.log.1", FsEntry.file "zz".data)],
             errno := 13, openCnt := 0, maxOpen := 0 }) := by
  have h1 := (C5_backup_slot (noFaultEnv 100 42) "r.log"
    feature_state_t.FEATURE_DISABLED feature_state_t.FEATURE_ENABLED
    10 35 0 FsEntry.dir 0 2
    { fs := [], errno := 2, openCnt := 0, maxOpen := 0 }).1
  have h2 := (C5_backup_slot (noFaultEnv 100 42) "r.log"
    feature_state_t.FEATURE_DISABLED feature_state_t.FEATURE_ENABLED
    39 35 5 (FsEntry.file "aaaaa".data) 0 0
    { fs := [("r.log", FsEntry.file "aaaaa".data),
             ("r.log.1", FsEntry.file "zz".data)],
      errno := 0, openCnt := 0, maxOpen := 0 }).2.1
    (by decide) rfl rfl (by decide) (by decide)
  have h3 := (C5_backup_slot
    { noFaultEnv 100 42 with unlinkFail := some 13 } "r.log"
    feature_state_t.FEATURE_DISABLED feature_state_t.FEATURE_ENABLED
    39 35 5 FsEntry.dir 13 0
    { fs := [("r.log", FsEntry.file "aaaaa".data),
             ("r.log.1", FsEntry.file "zz".data)],
      errno := 0, openCnt := 0, maxOpen := 0 }).2.2
    (by decide) rfl (by decide) (by decide)
  exact ⟨h1, ⟨h2.1, h2.2.1, h2.2.2.1⟩, h3⟩

/-- C6. Message truncation: a message of more than 256 bytes is logged as
its first 253 bytes followed by the three-byte marker `"..."`, 256 bytes
in total; a message of at most 256 bytes is logged verbatim.
-/
theorem C6_truncation (m : List Char) :
    (m.length > 256 →
      truncate_msg m = m.take 253 ++ "...".data
      ∧ (truncate_msg m).length = 256)
    ∧ (m.length ≤ 256 → truncate_msg m = m) := by
  constructor
  · intro h
    have heq : truncate_msg m = m.take 253 ++ "...".data := by
      simp [truncate_msg, SMARTLOG_MSG_MAX_LEN, h]
    refine ⟨heq, ?_⟩
    rw [heq]
    simp [List.length_take]
    omega
  · intro h
    simp [truncate_msg, SMARTLOG_MSG_MAX_LEN]
    omega

/-- Witness for C6: a 300-byte message is truncated to its first 253 bytes
plus `"..."`, total 256; a 256-byte message is kept verbatim. -/
theorem C6_truncation_witness :
    (truncate_msg (List.replicate 300 'a')
        = (List.replicate 300 'a').take 253 ++ "...".data
      ∧ (truncate_msg (List.replicate 300 'a')).length = 256)
    ∧ truncate_msg (List.replicate 256 'b') = List.replicate 256 'b' :=
  ⟨(C6_truncation (List.replicate 300 'a')).1 (by simp),
   (C6_truncation (List.replicate 256 'b')).2 (by simp)⟩

/-- C8. Directory rejection: an append whose path names an existing
directory (and whose message is valid) fails with `errno = EISDIR`,
leaves the filesystem exactly as it was, and never opens a descriptor
(so it neither opens nor rotates nor otherwise touches the directory).
-/
theorem C8_directory_rejection (env : Env) (p m : String)
    (dur cfg : feature_state_t) (maxv : Nat) (fs0 : Fs) (e0 : Nat)
    (hsf : env.statFail = none) (hp : p ≠ "") (hm : m ≠ "")
    (hd : fsLookup fs0 p = some FsEntry.dir) :
    smartlog_write_log_entry env (some p) (some m) dur cfg maxv fs0 e0
      = (1, { fs := fs0, errno := errnoIsdir, openCnt := 0, maxOpen := 0 }) := by
  simp only [smartlog_write_log_entry, if_neg hm, hsf, statFs, if_neg hp, hd]
  simp

/-- Witness for C8: appending `"hi"` to a path that is a directory. -/
theorem C8_directory_rejection_witness :
    smartlog_write_log_entry (noFaultEnv 100 42) (some "d") (some "hi")
      feature_state_t.FEATURE_DISABLED feature_state_t.FEATURE_DISABLED 0
      [("d", FsEntry.dir)] 7
      = (1, { fs := [("d", FsEntry.dir)], errno := errnoIsdir,
              openCnt := 0, maxOpen := 0 }) :=
  C8_directory_rejection (noFaultEnv 100 42) "d" "hi"
    feature_state_t.FEATURE_DISABLED feature_state_t.FEATURE_DISABLED 0
    [("d", FsEntry.dir)] 7 rfl (by decide) (by decide) (by decide)

/-- C3 counterexample. The claim says an append with an *empty path*
returns `InvalidArgument` (EINVAL).  On the code, an empty path sails past
validation (which only checks NULL pointers and the empty message), `stat`
fails with ENOENT, and the `open` then fails with ENOENT: the call returns
1 with `errno = ENOENT ≠ EINVAL` (though indeed without any filesystem
mutation).
-/
theorem C3_empty_path_counterexample :
    (smartlog_write_log_entry (noFaultEnv 100 42) (some "") (some "x")
        feature_state_t.FEATURE_DISABLED feature_state_t.FEATURE_DISABLED 0
        [] 0).1 = 1
    ∧ (smartlog_write_log_entry (noFaultEnv 100 42) (some "") (some "x")
        feature_state_t.FEATURE_DISABLED feature_state_t.FEATURE_DISABLED 0
        [] 0).2.errno = errnoNoent
    ∧ errnoNoent ≠ errnoInval
    ∧ (smartlog_write_log_entry (noFaultEnv 100 42) (some "") (some "x")
        feature_state_t.FEATURE_DISABLED feature_state_t.FEATURE_DISABLED 0
        [] 0).2.fs = [] := by decide

/-- C3 (amended). A NULL path, NULL message or empty message makes the
append return 1 with `errno = EINVAL` and no filesystem mutation (no
descriptor is ever opened, so no file is created).  An *empty* path also
fails with no filesystem mutation and no file created, but with
`errno = ENOENT` (from the failed open), not EINVAL.
-/
theorem C3_invalid_arguments (env : Env) (fp m : Option String)
    (dur cfg : feature_state_t) (maxv : Nat) (fs0 : Fs) (e0 : Nat) :
    (fp = none ∨ m = none ∨ m = some "" →
      smartlog_write_log_entry env fp m dur cfg maxv fs0 e0
        = (1, { fs := fs0, errno := errnoInval, openCnt := 0, maxOpen := 0 }))
    ∧ (∀ ms, m = some ms → ms ≠ "" → fp = some "" →
       env.statFail = none → env.openFail = none →
       (format_line (if env.clockFail then 0 else env.clockNs) env.pid
           (truncate_msg ms.data)).length < SMARTLOG_LOG_BUFFER_SZ →
        smartlog_write_log_entry env fp m dur cfg maxv fs0 e0
          = (1, { fs := fs0, errno := errnoNoent, openCnt := 0,
                  maxOpen := 0 })) := by
  constructor
  · intro h
    rcases h with h | h | h
    · subst h; rfl
    · subst h; cases fp <;> rfl
    · subst h
      cases fp with
      | none => rfl
      | some p => simp [smartlog_write_log_entry]
  · intro ms hms hne hfp hsf hof hlen
    subst hms; subst hfp
    cases hck : env.clockFail with
    | false =>
      have hnle : ¬ (SMARTLOG_LOG_BUFFER_SZ ≤
          (format_line env.clockNs env.pid (truncate_msg ms.data)).length) := by
        rw [hck] at hlen
        simp only [Bool.false_eq_true, if_false] at hlen
        omega
      simp only [smartlog_write_log_entry, if_neg hne, hsf, statFs,
        if_pos rfl, smartlog_timestamp_ns, hck]
      simp [smartlog_rotate_if_needed, write_entry_open_phase, hof,
        openAppendFs, errnoNoent]
      intro h
      exact absurd h hnle
    | true =>
      have hnle : ¬ (SMARTLOG_LOG_BUFFER_SZ ≤
          (format_line 0 env.pid (truncate_msg ms.data)).length) := by
        rw [hck] at hlen
        simp only [if_true] at hlen
        omega
      simp only [smartlog_write_log_entry, if_neg hne, hsf, statFs,
        if_pos rfl, smartlog_timestamp_ns, hck]
      simp [smartlog_rotate_if_needed, write_entry_open_phase, hof,
        openAppendFs, errnoNoent]
      intro h
      exact absurd h hnle

/-- Witness for C3 (amended): a NULL message, and an append to the empty
path. -/
theorem C3_invalid_arguments_witness :
    (smartlog_write_log_entry (noFaultEnv 100 42) (some "a.log") none
        feature_state_t.FEATURE_DISABLED feature_state_t.FEATURE_DISABLED 0
        [] 0
      = (1, { fs := [], errno := errnoInval, openCnt := 0, maxOpen := 0 }))
    ∧ (smartlog_write_log_entry (noFaultEnv 100 42) (some "") (some "x")
        feature_state_t.FEATURE_DISABLED feature_state_t.FEATURE_DISABLED 0
        [] 0
      = (1, { fs := [], errno := errnoNoent, openCnt := 0, maxOpen := 0 })) :=
  ⟨(C3_invalid_arguments (noFaultEnv 100 42) (some "a.log") none
      feature_state_t.FEATURE_DISABLED feature_state_t.FEATURE_DISABLED 0
      [] 0).1 (Or.inr (Or.inl rfl)),
   (C3_invalid_arguments (noFaultEnv 100 42) (some "") (some "x")
      feature_state_t.FEATURE_DISABLED feature_state_t.FEATURE_DISABLED 0
      [] 0).2 "x" rfl (by decide) rfl rfl rfl (by decide)⟩

/-- C1 (code evaluated at the failing input). With the deterministic
clock-failure injection active (`SMARTLOG_FAKE_CLOCK_FAIL=1`),
`smartlog_timestamp_ns` sets `errno = EIO` and returns 0, but
`smartlog_write_log_entry` never checks it: the append *succeeds*
(returns 0) and writes the line `"[0 ns] ..."` — contradicting the claim
(and the repository's own `test_timestamp_failure`), which require a
nonzero return with `errno = EIO` and no line written.
-/
theorem C1_clock_failure_ignored :
    smartlog_write_log_entry { noFaultEnv 0 4242 with clockFail := true }
      (some "t.log") (some "should-fail")
      feature_state_t.FEATURE_DISABLED feature_state_t.FEATURE_DISABLED 0
      [] 0
      = (0, { fs := [("t.log",
                FsEntry.file (format_line 0 4242 "should-fail".data))],
              errno := 0, openCnt := 0, maxOpen := 1 }) := by decide

/-! ## Helper lemmas: file-descriptor accounting -/

theorem timestamp_st (env : Env) (st : St) :
    (smartlog_timestamp_ns env st).2.openCnt = st.openCnt
    ∧ (smartlog_timestamp_ns env st).2.maxOpen = st.maxOpen
    ∧ (smartlog_timestamp_ns env st).2.fs = st.fs := by
  unfold smartlog_timestamp_ns
  split <;> simp

theorem fsync_pd_fdcount (d : DirSyncFaults) (path : Option String) (st : St) :
    (smartlog_fsync_parent_dir d path st).2.openCnt = st.openCnt
    ∧ (smartlog_fsync_parent_dir d path st).2.maxOpen
        ≤ max st.maxOpen (st.openCnt + 1)
    ∧ (smartlog_fsync_parent_dir d path st).2.fs = st.fs := by
  obtain ⟨dof, dff, dcf⟩ := d
  cases path with
  | none => simp [smartlog_fsync_parent_dir]
  | some p =>
    by_cases hp : p = ""
    · simp [smartlog_fsync_parent_dir, hp]
    · by_cases hl : SMARTLOG_PATH_MAX_LEN ≤ p.length
      · simp [smartlog_fsync_parent_dir, hp, hl]
      · cases dof <;> cases dff <;> cases dcf <;>
          simp [smartlog_fsync_parent_dir, hp, hl, stOpen, stClose]

theorem closeRestoring_st (cf : Option Nat) (st : St) :
    (closeRestoringErrno cf st).openCnt = st.openCnt - 1
    ∧ (closeRestoringErrno cf st).maxOpen = st.maxOpen
    ∧ (closeRestoringErrno cf st).fs = st.fs
    ∧ (closeRestoringErrno cf st).errno = st.errno := by
  cases cf <;> simp [closeRestoringErrno, closeFdM, stClose]

@[simp] theorem closeRestoring_openCnt (cf : Option Nat) (st : St) :
    (closeRestoringErrno cf st).openCnt = st.openCnt - 1 :=
  (closeRestoring_st cf st).1

@[simp] theorem closeRestoring_maxOpen (cf : Option Nat) (st : St) :
    (closeRestoringErrno cf st).maxOpen = st.maxOpen :=
  (closeRestoring_st cf st).2.1

@[simp] theorem closeRestoring_fs (cf : Option Nat) (st : St) :
    (closeRestoringErrno cf st).fs = st.fs :=
  (closeRestoring_st cf st).2.2.1

@[simp] theorem closeRestoring_errno (cf : Option Nat) (st : St) :
    (closeRestoringErrno cf st).errno = st.errno :=
  (closeRestoring_st cf st).2.2.2

@[simp] theorem closeFdM_openCnt (cf : Option Nat) (st : St) :
    (closeFdM cf st).2.openCnt = st.openCnt - 1 := by
  cases cf <;> simp [closeFdM, stClose]

@[simp] theorem closeFdM_maxOpen (cf : Option Nat) (st : St) :
    (closeFdM cf st).2.maxOpen = st.maxOpen := by
  cases cf <;> simp [closeFdM, stClose]

@[simp] theorem closeFdM_fs (cf : Option Nat) (st : St) :
    (closeFdM cf st).2.fs = st.fs := by
  cases cf <;> simp [closeFdM, stClose]

theorem wsc_openCnt (env : Env) (p : String) (dur : feature_state_t)
    (st6 : St) :
    (write_entry_sync_close env p dur st6).2.openCnt = st6.openCnt - 1 := by
  unfold write_entry_sync_close
  by_cases hd : dur = feature_state_t.FEATURE_ENABLED
  · rw [if_pos hd]
    rcases hfd : env.fdatasyncFail with _ | e
    · rcases hfs : smartlog_fsync_parent_dir env.finalSync (some p) st6
        with ⟨b, st7⟩
      obtain ⟨k1, _, _⟩ := fsync_pd_fdcount env.finalSync (some p) st6
      rw [hfs] at k1
      simp only at k1
      cases b
      · simp [k1]
      · rcases hc : closeFdM env.closeFail st7 with ⟨bc, stC⟩
        have hcc := closeFdM_openCnt env.closeFail st7
        rw [hc] at hcc
        cases bc <;> simp_all
    · simp
  · rw [if_neg hd]
    rcases hc : closeFdM env.closeFail st6 with ⟨bc, stC⟩
    have hcc := closeFdM_openCnt env.closeFail st6
    rw [hc] at hcc
    cases bc <;> simp_all

theorem wsc_maxOpen_le (env : Env) (p : String) (dur : feature_state_t)
    (st6 : St) :
    (write_entry_sync_close env p dur st6).2.maxOpen
      ≤ max st6.maxOpen (st6.openCnt + 1) := by
  unfold write_entry_sync_close
  by_cases hd : dur = feature_state_t.FEATURE_ENABLED
  · rw [if_pos hd]
    rcases hfd : env.fdatasyncFail with _ | e
    · rcases hfs : smartlog_fsync_parent_dir env.finalSync (some p) st6
        with ⟨b, st7⟩
      obtain ⟨_, k2, _⟩ := fsync_pd_fdcount env.finalSync (some p) st6
      rw [hfs] at k2
      simp only at k2
      cases b
      · simpa using k2
      · rcases hc : closeFdM env.closeFail st7 with ⟨bc, stC⟩
        have hcc := closeFdM_maxOpen env.closeFail st7
        rw [hc] at hcc
        cases bc <;> simp_all
    · simp
  · rw [if_neg hd]
    rcases hc : closeFdM env.closeFail st6 with ⟨bc, stC⟩
    have hcc := closeFdM_maxOpen env.closeFail st6
    rw [hc] at hcc
    cases bc <;> simp_all

theorem wsc_maxOpen_disabled (env : Env) (p : String) (st6 : St) :
    (write_entry_sync_close env p feature_state_t.FEATURE_DISABLED st6).2.maxOpen
      = st6.maxOpen := by
  unfold write_entry_sync_close
  rw [if_neg (by decide :
    ¬ (feature_state_t.FEATURE_DISABLED = feature_state_t.FEATURE_ENABLED))]
  rcases hc : closeFdM env.closeFail st6 with ⟨bc, stC⟩
  have hcc := closeFdM_maxOpen env.closeFail st6
  rw [hc] at hcc
  cases bc <;> simp_all

theorem open_phase_fdcount (env : Env) (p : String) (dur : feature_state_t)
    (f1 : Bool) (s1 : Nat) (line : List Char) (st : St) :
    (write_entry_open_phase env p dur f1 s1 line st).2.openCnt = st.openCnt
    ∧ (write_entry_open_phase env p dur f1 s1 line st).2.maxOpen
        ≤ max st.maxOpen (st.openCnt + 2)
    ∧ (dur = feature_state_t.FEATURE_DISABLED →
        (write_entry_open_phase env p dur f1 s1 line st).2.maxOpen
          ≤ max st.maxOpen (st.openCnt + 1)) := by
  unfold write_entry_open_phase
  rcases hof : env.openFail with _ | e
  · rcases hoa : openAppendFs st.fs p with e | ⟨cur, fs5⟩
    · simp
    · simp only
      rcases hfst : (if f1 = false ∧ s1 = errnoNoent
          then env.fstatFail else none) with _ | e2
      · simp only
        by_cases hw : (smartlog_write_all env.writePlan line).2.2 = false
        · rw [if_pos hw]
          simp [stOpen]
          omega
        · rw [if_neg hw]
          refine ⟨?_, ?_, ?_⟩
          · rw [wsc_openCnt]
            simp [stOpen]
          · refine le_trans (wsc_maxOpen_le _ _ _ _) ?_
            simp [stOpen]
            omega
          · intro hdd
            subst hdd
            rw [wsc_maxOpen_disabled]
            simp [stOpen]
      · simp [stOpen]
        omega
  · simp

theorem rename_phase_fdcount (env : Env) (fp np : String)
    (dur : feature_state_t) (f1 : Bool) (s1 : Nat) (st1 : St) :
    (rotate_rename_phase env fp np dur f1 s1 st1).2.openCnt = st1.openCnt
    ∧ (rotate_rename_phase env fp np dur f1 s1 st1).2.maxOpen
        ≤ max st1.maxOpen (st1.openCnt + 1)
    ∧ (dur = feature_state_t.FEATURE_DISABLED →
        (rotate_rename_phase env fp np dur f1 s1 st1).2.maxOpen
          = st1.maxOpen) := by
  unfold rotate_rename_phase
  rcases hrn : env.renameFail with _ | e
  · rcases hlk : fsLookup st1.fs fp with _ | ent
    · simp
    · simp only
      by_cases hd : dur = feature_state_t.FEATURE_ENABLED
      · rw [if_pos hd]
        rcases hfs : smartlog_fsync_parent_dir env.rotSync (some fp)
            { st1 with fs := fsSet (fsRemove st1.fs fp) np ent } with ⟨b, st3⟩
        obtain ⟨k1, k2, _⟩ := fsync_pd_fdcount env.rotSync (some fp)
            { st1 with fs := fsSet (fsRemove st1.fs fp) np ent }
        rw [hfs] at k1 k2
        simp at k1 k2
        cases b <;> simp [k1, k2] <;> (intro h; rw [h] at hd; simp at hd)
      · rw [if_neg hd]
        simp
  · simp

theorem rotate_fdcount (env : Env) (p : String) (dur cfg : feature_state_t)
    (B L S : Nat) (f1 : Bool) (s1 : Nat) (st : St) :
    (smartlog_rotate_if_needed env p dur cfg B L S f1 s1 st).2.openCnt
      = st.openCnt
    ∧ (smartlog_rotate_if_needed env p dur cfg B L S f1 s1 st).2.maxOpen
        ≤ max st.maxOpen (st.openCnt + 1)
    ∧ (dur = feature_state_t.FEATURE_DISABLED →
        (smartlog_rotate_if_needed env p dur cfg B L S f1 s1 st).2.maxOpen
          = st.maxOpen) := by
  by_cases hg : cfg ≠ feature_state_t.FEATURE_ENABLED ∨ f1 ≠ true
  · simp only [smartlog_rotate_if_needed]
    rw [if_pos hg]
    simp
  · by_cases hge : B ≥ S + L
    · simp only [smartlog_rotate_if_needed]
      rw [if_neg hg, if_pos hge]
      simp
    · by_cases hlen : SMARTLOG_PATH_MAX_LEN ≤ p.length + 2
      · simp only [smartlog_rotate_if_needed]
        rw [if_neg hg, if_neg hge, if_pos hlen]
        simp
      · rcases hu : env.unlinkFail with _ | e
        · rcases hbk : fsLookup st.fs (p ++ ".1") with _ | b
          · simp only [smartlog_rotate_if_needed]
            rw [if_neg hg, if_neg hge, if_neg hlen]
            simp only [hu, hbk]
            obtain ⟨k1, k2, k3⟩ := rename_phase_fdcount env p (p ++ ".1")
              dur f1 s1 { st with errno := errnoNoent }
            exact ⟨k1, by simpa using k2, fun h => by simpa using k3 h⟩
          · simp only [smartlog_rotate_if_needed]
            rw [if_neg hg, if_neg hge, if_neg hlen]
            simp only [hu, hbk]
            obtain ⟨k1, k2, k3⟩ := rename_phase_fdcount env p (p ++ ".1")
              dur f1 s1 { st with fs := fsRemove st.fs (p ++ ".1") }
            exact ⟨k1, by simpa using k2, fun h => by simpa using k3 h⟩
        · by_cases he : e = errnoNoent
          · simp only [smartlog_rotate_if_needed]
            rw [if_neg hg, if_neg hge, if_neg hlen]
            simp only [hu, if_pos he]
            obtain ⟨k1, k2, k3⟩ := rename_phase_fdcount env p (p ++ ".1")
              dur f1 s1 { st with errno := e }
            exact ⟨k1, by simpa using k2, fun h => by simpa using k3 h⟩
          · simp only [smartlog_rotate_if_needed]
            rw [if_neg hg, if_neg hge, if_neg hlen]
            simp only [hu, if_neg he]
            simp

@[simp] theorem ts_openCnt (env : Env) (st : St) :
    (smartlog_timestamp_ns env st).2.openCnt = st.openCnt :=
  (timestamp_st env st).1

@[simp] theorem ts_maxOpen (env : Env) (st : St) :
    (smartlog_timestamp_ns env st).2.maxOpen = st.maxOpen :=
  (timestamp_st env st).2.1

@[simp] theorem rotate_openCnt (env : Env) (p : String)
    (dur cfg : feature_state_t) (B L S : Nat) (f1 : Bool) (s1 : Nat)
    (st : St) :
    (smartlog_rotate_if_needed env p dur cfg B L S f1 s1 st).2.openCnt
      = st.openCnt :=
  (rotate_fdcount env p dur cfg B L S f1 s1 st).1

theorem rotate_maxOpen_le (env : Env) (p : String)
    (dur cfg : feature_state_t) (B L S : Nat) (f1 : Bool) (s1 : Nat)
    (st : St) :
    (smartlog_rotate_if_needed env p dur cfg B L S f1 s1 st).2.maxOpen
      ≤ max st.maxOpen (st.openCnt + 1) :=
  (rotate_fdcount env p dur cfg B L S f1 s1 st).2.1

@[simp] theorem rotate_maxOpen_disabled (env : Env) (p : String)
    (cfg : feature_state_t) (B L S : Nat) (f1 : Bool) (s1 : Nat) (st : St) :
    (smartlog_rotate_if_needed env p feature_state_t.FEATURE_DISABLED cfg
      B L S f1 s1 st).2.maxOpen = st.maxOpen :=
  (rotate_fdcount env p feature_state_t.FEATURE_DISABLED cfg
    B L S f1 s1 st).2.2 rfl

@[simp] theorem phase_openCnt (env : Env) (p : String)
    (dur : feature_state_t) (f1 : Bool) (s1 : Nat) (line : List Char)
    (st : St) :
    (write_entry_open_phase env p dur f1 s1 line st).2.openCnt
      = st.openCnt :=
  (open_phase_fdcount env p dur f1 s1 line st).1

theorem phase_maxOpen_le (env : Env) (p : String) (dur : feature_state_t)
    (f1 : Bool) (s1 : Nat) (line : List Char) (st : St) :
    (write_entry_open_phase env p dur f1 s1 line st).2.maxOpen
      ≤ max st.maxOpen (st.openCnt + 2) :=
  (open_phase_fdcount env p dur f1 s1 line st).2.1

theorem phase_maxOpen_disabled_le (env : Env) (p : String) (f1 : Bool)
    (s1 : Nat) (line : List Char) (st : St) :
    (write_entry_open_phase env p feature_state_t.FEATURE_DISABLED
      f1 s1 line st).2.maxOpen ≤ max st.maxOpen (st.openCnt + 1) :=
  (open_phase_fdcount env p feature_state_t.FEATURE_DISABLED
    f1 s1 line st).2.2 rfl

/-- C4 counterexample. The claim says the engine holds *at most one* open
descriptor at any moment.  In durable mode, while the log-file descriptor
is still open, `smartlog_fsync_parent_dir` opens a second descriptor for
the parent directory: a fault-free durable append to an existing file
reaches a high-water mark of **two** simultaneously open descriptors.
-/
theorem C4_single_fd_counterexample :
    (smartlog_write_log_entry (noFaultEnv 100 42) (some "x/a.log")
        (some "hi") feature_state_t.FEATURE_ENABLED
        feature_state_t.FEATURE_DISABLED 0
        [("x/a.log", FsEntry.file [])] 0).2.maxOpen = 2 := by decide

/-- C4 (amended). Descriptor discipline of the append engine: under every
fault environment and input, every descriptor the engine opened is closed
again before the call returns (final open count 0), at most **two**
descriptors are ever open simultaneously (the log file plus, during the
durable parent-directory sync, a directory descriptor), and with
durability off at most one descriptor is ever open.
-/
theorem C4_fd_discipline (env : Env) (fp m : Option String)
    (dur cfg : feature_state_t) (maxv : Nat) (fs0 : Fs) (e0 : Nat) :
    (smartlog_write_log_entry env fp m dur cfg maxv fs0 e0).2.openCnt = 0
    ∧ (smartlog_write_log_entry env fp m dur cfg maxv fs0 e0).2.maxOpen ≤ 2
    ∧ (dur = feature_state_t.FEATURE_DISABLED →
        (smartlog_write_log_entry env fp m dur cfg maxv fs0 e0).2.maxOpen
          ≤ 1) := by
  cases fp with
  | none => simp [smartlog_write_log_entry]
  | some p =>
    cases m with
    | none => simp [smartlog_write_log_entry]
    | some ms =>
      by_cases hm : ms = ""
      · simp [smartlog_write_log_entry, hm]
      · simp only [smartlog_write_log_entry]
        rw [if_neg hm]
        split
        · simp
        · split
          · simp
          · split
            · simp
            · split
              · refine ⟨by simp, ?_, ?_⟩
                · refine le_trans (rotate_maxOpen_le _ _ _ _ _ _ _ _ _ _) ?_
                  simp
                · intro hd
                  subst hd
                  simp
              · refine ⟨by simp, ?_, ?_⟩
                · refine le_trans (phase_maxOpen_le _ _ _ _ _ _ _) ?_
                  refine max_le ?_ (by simp)
                  refine le_trans (rotate_maxOpen_le _ _ _ _ _ _ _ _ _ _) ?_
                  simp
                · intro hd
                  subst hd
                  refine le_trans (phase_maxOpen_disabled_le _ _ _ _ _ _) ?_
                  simp

/-- Witness for C4 (amended) at a concrete durable append. -/
theorem C4_fd_discipline_witness :
    (smartlog_write_log_entry (noFaultEnv 100 42) (some "x/a.log")
        (some "hi") feature_state_t.FEATURE_ENABLED
        feature_state_t.FEATURE_DISABLED 0
        [("x/a.log", FsEntry.file [])] 0).2.openCnt = 0
    ∧ (smartlog_write_log_entry (noFaultEnv 100 42) (some "x/a.log")
        (some "hi") feature_state_t.FEATURE_ENABLED
        feature_state_t.FEATURE_DISABLED 0
        [("x/a.log", FsEntry.file [])] 0).2.maxOpen ≤ 2
    ∧ (feature_state_t.FEATURE_ENABLED = feature_state_t.FEATURE_DISABLED →
        (smartlog_write_log_entry (noFaultEnv 100 42) (some "x/a.log")
          (some "hi") feature_state_t.FEATURE_ENABLED
          feature_state_t.FEATURE_DISABLED 0
          [("x/a.log", FsEntry.file [])] 0).2.maxOpen ≤ 1) :=
  C4_fd_discipline (noFaultEnv 100 42) (some "x/a.log") (some "hi")
    feature_state_t.FEATURE_ENABLED feature_state_t.FEATURE_DISABLED 0
    [("x/a.log", FsEntry.file [])] 0

/-! ## Helper lemmas for the success path -/

@[simp] theorem ts_fs (env : Env) (st : St) :
    (smartlog_timestamp_ns env st).2.fs = st.fs :=
  (timestamp_st env st).2.2

@[simp] theorem ts_val (env : Env) (st : St) :
    (smartlog_timestamp_ns env st).1
      = if env.clockFail then 0 else env.clockNs := by
  unfold smartlog_timestamp_ns
  split <;> simp_all

@[simp] theorem rotate_cfg_disabled (env : Env) (p : String)
    (dur : feature_state_t) (B L S : Nat) (f1 : Bool) (s1 : Nat) (st : St) :
    smartlog_rotate_if_needed env p dur feature_state_t.FEATURE_DISABLED
      B L S f1 s1 st = ((0, f1, s1), st) := by
  unfold smartlog_rotate_if_needed
  rw [if_pos (Or.inl (by decide))]

theorem wsc_fs (env : Env) (p : String) (dur : feature_state_t) (st6 : St) :
    (write_entry_sync_close env p dur st6).2.fs = st6.fs := by
  unfold write_entry_sync_close
  by_cases hd : dur = feature_state_t.FEATURE_ENABLED
  · rw [if_pos hd]
    rcases hfd : env.fdatasyncFail with _ | e
    · rcases hfs : smartlog_fsync_parent_dir env.finalSync (some p) st6
        with ⟨b, st7⟩
      obtain ⟨_, _, k3⟩ := fsync_pd_fdcount env.finalSync (some p) st6
      rw [hfs] at k3
      simp only at k3
      cases b
      · simp [k3]
      · rcases hc : closeFdM env.closeFail st7 with ⟨bc, stC⟩
        have hfc := closeFdM_fs env.closeFail st7
        rw [hc] at hfc
        cases bc <;> simp_all
    · simp
  · rw [if_neg hd]
    rcases hc : closeFdM env.closeFail st6 with ⟨bc, stC⟩
    have hfc := closeFdM_fs env.closeFail st6
    rw [hc] at hfc
    cases bc <;> simp_all

/-- On a successful run of STEPs 4–8 the log file holds its previous
content (empty if it was just created) followed by the formatted line. -/
theorem phase_success_content (env : Env) (p : String)
    (dur : feature_state_t) (f1 : Bool) (s1 : Nat) (line : List Char)
    (st : St)
    (hret : (write_entry_open_phase env p dur f1 s1 line st).1 = 0) :
    fsLookup (write_entry_open_phase env p dur f1 s1 line st).2.fs p
      = some (FsEntry.file ((match fsLookup st.fs p with
          | some (FsEntry.file c) => c
          | _ => []) ++ line)) := by
  unfold write_entry_open_phase at hret ⊢
  rcases hof : env.openFail with _ | e
  · rw [hof] at hret
    try dsimp only at hret
    try dsimp only
    rcases hoa : openAppendFs st.fs p with eo | ⟨cur, fs5⟩
    · rw [hoa] at hret
      simp at hret
    · rw [hoa] at hret
      try dsimp only at hret
      try dsimp only
      rcases hfst : (if f1 = false ∧ s1 = errnoNoent
          then env.fstatFail else none) with _ | e2
      · rw [hfst] at hret
        try dsimp only at hret
        try dsimp only
        by_cases hw : (smartlog_write_all env.writePlan line).2.2 = false
        · rw [if_pos hw] at hret
          simp at hret
        · rw [if_neg hw] at hret ⊢
          have hws : (smartlog_write_all env.writePlan line).1 = line := by
            have h2 : (smartlog_write_all env.writePlan line).2.2 = true := by
              cases h3 : (smartlog_write_all env.writePlan line).2.2 with
              | false => exact absurd h3 hw
              | true => rfl
            have := write_all_go_ok env.writePlan line [] 0
              (by simpa [smartlog_write_all] using h2)
            simpa [smartlog_write_all] using this
          rw [wsc_fs]
          simp only [stOpen]
          unfold openAppendFs at hoa
          by_cases hp : p = ""
          · rw [if_pos hp] at hoa
            simp at hoa
          · rw [if_neg hp] at hoa
            rcases hlk : fsLookup st.fs p with _ | ent
            · rw [hlk] at hoa
              try dsimp only at hoa
              try dsimp only
              simp only [Except.ok.injEq, Prod.mk.injEq] at hoa
              obtain ⟨hcur, hfs5⟩ := hoa
              subst hcur; subst hfs5
              simp [hws]
            · cases ent with
              | dir =>
                rw [hlk] at hoa
                simp at hoa
              | file c =>
                rw [hlk] at hoa
                try dsimp only at hoa
                try dsimp only
                simp only [Except.ok.injEq, Prod.mk.injEq] at hoa
                obtain ⟨hcur, hfs5⟩ := hoa
                subst hcur; subst hfs5
                simp [hws]
      · rw [hfst] at hret
        simp at hret
  · rw [hof] at hret
    simp at hret

theorem format_line_last (t pid : Nat) (m : List Char) :
    (format_line t pid m).getLast? = some '\n' := by
  unfold format_line
  have h2 : ("]\n").data = [']'] ++ ['\n'] := rfl
  rw [h2, ← List.append_assoc]
  exact List.getLast?_concat _

/-- C9. Entry format: every successfully appended entry (rotation off)
leaves the log file holding its prior content followed by exactly the line
`"[<timestamp_ns> ns] [PID = <pid>] [MESSAGE = <message>]\n"` — a single
newline-terminated line of the fixed shape; and if the composed line would
not fit the 1024-byte internal buffer, the call fails with
`errno = EOVERFLOW` before any filesystem mutation.
-/
theorem C9_entry_format (env : Env) (p ms : String) (dur : feature_state_t)
    (maxv : Nat) (fs0 : Fs) (e0 : Nat) :
    ((smartlog_write_log_entry env (some p) (some ms) dur
        feature_state_t.FEATURE_DISABLED maxv fs0 e0).1 = 0 →
      fsLookup (smartlog_write_log_entry env (some p) (some ms) dur
          feature_state_t.FEATURE_DISABLED maxv fs0 e0).2.fs p
        = some (FsEntry.file ((match fsLookup fs0 p with
            | some (FsEntry.file c) => c
            | _ => []) ++
            format_line (if env.clockFail then 0 else env.clockNs) env.pid
              (truncate_msg ms.data))))
    ∧ (format_line (if env.clockFail then 0 else env.clockNs) env.pid
        (truncate_msg ms.data)).getLast? = some '\n'
    ∧ (env.statFail = none → statFs fs0 p ≠ some FsEntry.dir → ms ≠ "" →
       SMARTLOG_LOG_BUFFER_SZ ≤
         (format_line (if env.clockFail then 0 else env.clockNs) env.pid
           (truncate_msg ms.data)).length →
        smartlog_write_log_entry env (some p) (some ms) dur
          feature_state_t.FEATURE_DISABLED maxv fs0 e0
          = (1, { fs := fs0, errno := errnoOverflow, openCnt := 0,
                  maxOpen := 0 })) := by
  refine ⟨?_, format_line_last _ _ _, ?_⟩
  · intro hret
    unfold smartlog_write_log_entry at hret ⊢
    try dsimp only at hret ⊢
    by_cases hm : ms = ""
    · rw [if_pos hm] at hret
      simp at hret
    · rw [if_neg hm] at hret ⊢
      rcases hsf : env.statFail with _ | es
      · rw [hsf] at hret
        try dsimp only at hret ⊢
        rcases hlk : statFs fs0 p with _ | ent
        · rw [hlk] at hret
          try dsimp only at hret ⊢
          simp only [Bool.false_eq_true, false_and, if_false, reduceCtorEq,
            and_false, ne_eq, not_true_eq_false] at hret ⊢
          by_cases hov : SMARTLOG_LOG_BUFFER_SZ ≤
              (format_line (smartlog_timestamp_ns env
                { fs := fs0, errno := errnoNoent, openCnt := 0,
                  maxOpen := 0 }).1 env.pid (truncate_msg ms.data)).length
          · rw [if_pos hov] at hret
            simp at hret
          · rw [if_neg hov] at hret ⊢
            simp only [rotate_cfg_disabled] at hret ⊢
            try dsimp only at hret ⊢
            try simp only [eq_self_iff_true, not_true, if_false] at hret ⊢
            rw [phase_success_content _ _ _ _ _ _ _ hret]
            simp
        · cases ent with
          | dir =>
            rw [hlk] at hret
            simp at hret
          | file c =>
            rw [hlk] at hret
            try dsimp only at hret ⊢
            simp only [Option.some.injEq, reduceCtorEq, and_false,
              if_false, Bool.true_eq_false, false_and, ne_eq] at hret ⊢
            by_cases hov : SMARTLOG_LOG_BUFFER_SZ ≤
                (format_line (smartlog_timestamp_ns env
                  { fs := fs0, errno := 0, openCnt := 0,
                    maxOpen := 0 }).1 env.pid (truncate_msg ms.data)).length
            · rw [if_pos hov] at hret
              simp at hret
            · rw [if_neg hov] at hret ⊢
              simp only [rotate_cfg_disabled] at hret ⊢
              try dsimp only at hret ⊢
              try simp only [eq_self_iff_true, not_true, if_false] at hret ⊢
              rw [phase_success_content _ _ _ _ _ _ _ hret]
              simp [hlk]
      · rw [hsf] at hret
        try dsimp only at hret ⊢
        simp only [Bool.false_eq_true, false_and, if_false, reduceCtorEq,
          and_false, ne_eq] at hret ⊢
        by_cases hes : es = errnoNoent
        · subst hes
          try simp only [eq_self_iff_true, not_true_eq_false, and_false,
            if_false] at hret ⊢
          by_cases hov : SMARTLOG_LOG_BUFFER_SZ ≤
              (format_line (smartlog_timestamp_ns env
                { fs := fs0, errno := errnoNoent, openCnt := 0,
                  maxOpen := 0 }).1 env.pid (truncate_msg ms.data)).length
          · rw [if_pos hov] at hret
            simp at hret
          · rw [if_neg hov] at hret ⊢
            simp only [rotate_cfg_disabled] at hret ⊢
            try dsimp only at hret ⊢
            try simp only [eq_self_iff_true, not_true, if_false] at hret ⊢
            rw [phase_success_content _ _ _ _ _ _ _ hret]
            simp
        · rw [if_pos (by simp [hes])] at hret
          simp at hret
  · intro hsf hnd hm hov
    unfold smartlog_write_log_entry
    try dsimp only
    rw [if_neg hm, hsf]
    try dsimp only
    rcases hlk : statFs fs0 p with _ | ent
    · try dsimp only
      simp only [Bool.false_eq_true, false_and, if_false, reduceCtorEq,
        and_false, ne_eq, not_true_eq_false]
      rw [if_pos (by simpa using hov)]
      cases hck : env.clockFail <;>
        simp [smartlog_timestamp_ns, hck]
    · cases ent with
      | dir => exact absurd hlk hnd
      | file c =>
        try dsimp only
        simp only [Option.some.injEq, reduceCtorEq, and_false, if_false,
          Bool.true_eq_false, false_and, ne_eq]
        rw [if_pos (by simpa using hov)]
        cases hck : env.clockFail <;>
          simp [smartlog_timestamp_ns, hck]

/-- Witness for C9: a fault-free append of `"hi"` to a fresh file yields
exactly the formatted line; with a 1000-digit timestamp the composed line
(1030 bytes) overflows the 1024-byte buffer and the call fails with
`EOVERFLOW` leaving the filesystem empty. -/
theorem C9_entry_format_witness :
    (fsLookup (smartlog_write_log_entry (noFaultEnv 100 42) (some "a.log")
        (some "hi") feature_state_t.FEATURE_DISABLED
        feature_state_t.FEATURE_DISABLED 0 [] 0).2.fs "a.log"
      = some (FsEntry.file ((match fsLookup ([] : Fs) "a.log" with
          | some (FsEntry.file c) => c
          | _ => []) ++
          format_line (if (noFaultEnv 100 42).clockFail then 0
            else (noFaultEnv 100 42).clockNs) (noFaultEnv 100 42).pid
            (truncate_msg "hi".data))))
    ∧ smartlog_write_log_entry (noFaultEnv (10 ^ 999) 7) (some "big.log")
        (some "x") feature_state_t.FEATURE_DISABLED
        feature_state_t.FEATURE_DISABLED 0 [] 0
      = (1, { fs := [], errno := errnoOverflow, openCnt := 0,
              maxOpen := 0 }) :=
  ⟨(C9_entry_format (noFaultEnv 100 42) "a.log" "hi"
      feature_state_t.FEATURE_DISABLED 0 [] 0).1 (by decide),
   (C9_entry_format (noFaultEnv (10 ^ 999) 7) "big.log" "x"
      feature_state_t.FEATURE_DISABLED 0 [] 0).2.2 rfl (by decide)
      (by decide) (by decide)⟩

/-- Reaching STEP 4: with a valid message, no stat fault, an absent target
file, rotation off, and no buffer overflow, the engine proceeds to the
open phase with `file1_exist = -1`, `stat1_errno = ENOENT`. -/
theorem engine_reaches_phase (env : Env) (p ms : String)
    (dur : feature_state_t) (maxv : Nat) (fs0 : Fs) (e0 : Nat)
    (hm : ms ≠ "") (hsf : env.statFail = none) (hlk : statFs fs0 p = none)
    (hov : ¬ SMARTLOG_LOG_BUFFER_SZ ≤
      (format_line (if env.clockFail then 0 else env.clockNs) env.pid
        (truncate_msg ms.data)).length) :
    smartlog_write_log_entry env (some p) (some ms) dur
        feature_state_t.FEATURE_DISABLED maxv fs0 e0
      = write_entry_open_phase env p dur false errnoNoent
          (format_line (if env.clockFail then 0 else env.clockNs) env.pid
            (truncate_msg ms.data))
          (smartlog_timestamp_ns env
            { fs := fs0, errno := errnoNoent, openCnt := 0,
              maxOpen := 0 }).2 := by
  have hov2 : ¬ SMARTLOG_LOG_BUFFER_SZ ≤
      (format_line (smartlog_timestamp_ns env
        { fs := fs0, errno := errnoNoent, openCnt := 0, maxOpen := 0 }).1
        env.pid (truncate_msg ms.data)).length := by
    simpa using hov
  unfold smartlog_write_log_entry
  try dsimp only
  rw [if_neg hm, hsf]
  try dsimp only
  rw [hlk]
  try dsimp only
  simp only [Bool.false_eq_true, false_and, if_false, reduceCtorEq,
    and_false, ne_eq, not_true_eq_false]
  rw [if_neg hov2]
  simp only [rotate_cfg_disabled]
  try dsimp only
  try simp only [eq_self_iff_true, not_true, if_false]
  try simp [ts_val]

/-- `smartlog_write_all` with an empty fault plan transfers the whole
buffer and reports success. -/
theorem write_all_nil_plan (buf : List Char) :
    smartlog_write_all [] buf = (buf, 0, true) := by
  cases buf <;> rfl

/-- A formatted line is never empty. -/
theorem format_line_ne_nil (t pid : Nat) (m : List Char) :
    format_line t pid m ≠ [] := by
  intro h
  have h2 := congrArg List.getLast? h
  rw [format_line_last] at h2
  simp at h2

/-- Open phase, fstat-failure path: opening a freshly created file, an
injected fstat failure `e` aborts with return 1 and the caller observes
errno `e` (the cleanup close cannot clobber it). -/
theorem phase_fstat_errno (env : Env) (p : String) (dur : feature_state_t)
    (line : List Char) (st : St) (e : Nat)
    (hp : p ≠ "") (hof : env.openFail = none)
    (hlk : fsLookup st.fs p = none) (hfst : env.fstatFail = some e) :
    (write_entry_open_phase env p dur false errnoNoent line st).1 = 1
    ∧ (write_entry_open_phase env p dur false errnoNoent line st).2.errno
        = e := by
  unfold write_entry_open_phase
  rw [hof]
  try dsimp only
  unfold openAppendFs
  rw [if_neg hp, hlk]
  try dsimp only
  rw [if_pos ⟨rfl, rfl⟩, hfst]
  try dsimp only
  simp

/-- Open phase, write-failure path: when the retrying write loop fails
with errno `ef`, the call returns 1 and the caller observes `ef`. -/
theorem phase_write_errno (env : Env) (p : String) (dur : feature_state_t)
    (line : List Char) (st : St) (w : List Char) (ef : Nat)
    (hp : p ≠ "") (hof : env.openFail = none)
    (hlk : fsLookup st.fs p = none) (hfst : env.fstatFail = none)
    (hw : smartlog_write_all env.writePlan line = (w, ef, false)) :
    (write_entry_open_phase env p dur false errnoNoent line st).1 = 1
    ∧ (write_entry_open_phase env p dur false errnoNoent line st).2.errno
        = ef := by
  unfold write_entry_open_phase
  rw [hof]
  try dsimp only
  unfold openAppendFs
  rw [if_neg hp, hlk]
  try dsimp only
  rw [if_pos ⟨rfl, rfl⟩, hfst]
  try dsimp only
  rw [if_pos (by rw [hw])]
  simp [hw]

/-- Open phase, durable paths: after a successful write, an injected
fdatasync failure `e`, or a parent-directory fsync failure `e`, aborts
with return 1 and the caller observes `e`. -/
theorem phase_sync_errno (env : Env) (p : String) (line : List Char)
    (st : St) (e : Nat)
    (hp : p ≠ "") (hof : env.openFail = none)
    (hlk : fsLookup st.fs p = none) (hfst : env.fstatFail = none)
    (hwp : env.writePlan = []) :
    (env.fdatasyncFail = some e →
      (write_entry_open_phase env p feature_state_t.FEATURE_ENABLED
          false errnoNoent line st).1 = 1
      ∧ (write_entry_open_phase env p feature_state_t.FEATURE_ENABLED
          false errnoNoent line st).2.errno = e)
    ∧ (env.fdatasyncFail = none →
       env.finalSync = ⟨none, some e, none⟩ →
       ¬ SMARTLOG_PATH_MAX_LEN ≤ p.length →
      (write_entry_open_phase env p feature_state_t.FEATURE_ENABLED
          false errnoNoent line st).1 = 1
      ∧ (write_entry_open_phase env p feature_state_t.FEATURE_ENABLED
          false errnoNoent line st).2.errno = e) := by
  have hstep : ∀ P : Nat × St → Prop,
      P (write_entry_sync_close env p feature_state_t.FEATURE_ENABLED
        { stOpen { st with fs := fsSet st.fs p (FsEntry.file []) } with
          fs := fsSet
            (stOpen { st with fs := fsSet st.fs p (FsEntry.file []) }).fs p
            (FsEntry.file ([] ++ (smartlog_write_all env.writePlan line).1)),
          errno := (smartlog_write_all env.writePlan line).2.1 }) →
      P (write_entry_open_phase env p feature_state_t.FEATURE_ENABLED
        false errnoNoent line st) := by
    intro P hP
    unfold write_entry_open_phase
    rw [hof]
    try dsimp only
    unfold openAppendFs
    rw [if_neg hp, hlk]
    try dsimp only
    rw [if_pos ⟨rfl, rfl⟩, hfst]
    try dsimp only
    rw [if_neg (by rw [hwp, write_all_nil_plan]; simp)]
    exact hP
  constructor
  · intro hfd
    refine hstep (fun r => r.1 = 1 ∧ r.2.errno = e) ?_
    unfold write_entry_sync_close
    rw [if_pos rfl, hfd]
    simp
  · intro hfdN hfsync hplen
    refine hstep (fun r => r.1 = 1 ∧ r.2.errno = e) ?_
    unfold write_entry_sync_close
    rw [if_pos rfl, hfdN]
    try dsimp only
    unfold smartlog_fsync_parent_dir
    rw [hfsync]
    try dsimp only
    rw [if_neg hp, if_neg hplen]
    try dsimp only
    simp [stClose]

/-- C10. On every error path taken after the log descriptor is open —
fstat failure, write failure, fdatasync failure, parent-directory-sync
failure — the errno of the original failing operation is saved before the
cleanup `close` and restored afterwards, so the caller observes the
original errno `e` even when the cleanup close would itself set
`errno = e'` (the write-failure case uses the zero-progress write, whose
original errno is `EIO`).
-/
theorem C10_errno_restored_after_close (e e' : Nat) :
    ((smartlog_write_log_entry (c10EnvFstat e e') (some "a") (some "m")
        feature_state_t.FEATURE_DISABLED feature_state_t.FEATURE_DISABLED
        0 [] 0).1 = 1
      ∧ (smartlog_write_log_entry (c10EnvFstat e e') (some "a") (some "m")
          feature_state_t.FEATURE_DISABLED feature_state_t.FEATURE_DISABLED
          0 [] 0).2.errno = e)
    ∧ ((smartlog_write_log_entry (c10EnvWrite e') (some "a") (some "m")
        feature_state_t.FEATURE_DISABLED feature_state_t.FEATURE_DISABLED
        0 [] 0).1 = 1
      ∧ (smartlog_write_log_entry (c10EnvWrite e') (some "a") (some "m")
          feature_state_t.FEATURE_DISABLED feature_state_t.FEATURE_DISABLED
          0 [] 0).2.errno = errnoEio)
    ∧ ((smartlog_write_log_entry (c10EnvFdatasync e e') (some "a")
        (some "m") feature_state_t.FEATURE_ENABLED
        feature_state_t.FEATURE_DISABLED 0 [] 0).1 = 1
      ∧ (smartlog_write_log_entry (c10EnvFdatasync e e') (some "a")
          (some "m") feature_state_t.FEATURE_ENABLED
          feature_state_t.FEATURE_DISABLED 0 [] 0).2.errno = e)
    ∧ ((smartlog_write_log_entry (c10EnvDirsync e e') (some "a")
        (some "m") feature_state_t.FEATURE_ENABLED
        feature_state_t.FEATURE_DISABLED 0 [] 0).1 = 1
      ∧ (smartlog_write_log_entry (c10EnvDirsync e e') (some "a")
          (some "m") feature_state_t.FEATURE_ENABLED
          feature_state_t.FEATURE_DISABLED 0 [] 0).2.errno = e) := by
  have hov : ¬ SMARTLOG_LOG_BUFFER_SZ ≤
      (format_line (if false then 0 else 5) 7
        (truncate_msg "m".data)).length := by
    decide
  refine ⟨⟨?_, ?_⟩, ⟨?_, ?_⟩, ⟨?_, ?_⟩, ⟨?_, ?_⟩⟩
  · rw [engine_reaches_phase (c10EnvFstat e e') "a" "m"
      feature_state_t.FEATURE_DISABLED 0 [] 0 (by decide) rfl rfl hov]
    exact (phase_fstat_errno (c10EnvFstat e e') "a"
      feature_state_t.FEATURE_DISABLED _
      (smartlog_timestamp_ns (c10EnvFstat e e')
        { fs := [], errno := errnoNoent, openCnt := 0, maxOpen := 0 }).2
      e (by decide) rfl rfl rfl).1
  · rw [engine_reaches_phase (c10EnvFstat e e') "a" "m"
      feature_state_t.FEATURE_DISABLED 0 [] 0 (by decide) rfl rfl hov]
    exact (phase_fstat_errno (c10EnvFstat e e') "a"
      feature_state_t.FEATURE_DISABLED _
      (smartlog_timestamp_ns (c10EnvFstat e e')
        { fs := [], errno := errnoNoent, openCnt := 0, maxOpen := 0 }).2
      e (by decide) rfl rfl rfl).2
  · rw [engine_reaches_phase (c10EnvWrite e') "a" "m"
      feature_state_t.FEATURE_DISABLED 0 [] 0 (by decide) rfl rfl hov]
    exact (phase_write_errno (c10EnvWrite e') "a"
      feature_state_t.FEATURE_DISABLED _
      (smartlog_timestamp_ns (c10EnvWrite e')
        { fs := [], errno := errnoNoent, openCnt := 0, maxOpen := 0 }).2
      _ errnoEio (by decide) rfl rfl
      rfl (by rfl)).1
  · rw [engine_reaches_phase (c10EnvWrite e') "a" "m"
      feature_state_t.FEATURE_DISABLED 0 [] 0 (by decide) rfl rfl hov]
    exact (phase_write_errno (c10EnvWrite e') "a"
      feature_state_t.FEATURE_DISABLED _
      (smartlog_timestamp_ns (c10EnvWrite e')
        { fs := [], errno := errnoNoent, openCnt := 0, maxOpen := 0 }).2
      _ errnoEio (by decide) rfl rfl
      rfl (by rfl)).2
  · rw [engine_reaches_phase (c10EnvFdatasync e e') "a" "m"
      feature_state_t.FEATURE_ENABLED 0 [] 0 (by decide) rfl rfl hov]
    exact ((phase_sync_errno (c10EnvFdatasync e e') "a" _
      (smartlog_timestamp_ns (c10EnvFdatasync e e')
        { fs := [], errno := errnoNoent, openCnt := 0, maxOpen := 0 }).2
      e (by decide) rfl rfl rfl rfl).1 rfl).1
  · rw [engine_reaches_phase (c10EnvFdatasync e e') "a" "m"
      feature_state_t.FEATURE_ENABLED 0 [] 0 (by decide) rfl rfl hov]
    exact ((phase_sync_errno (c10EnvFdatasync e e') "a" _
      (smartlog_timestamp_ns (c10EnvFdatasync e e')
        { fs := [], errno := errnoNoent, openCnt := 0, maxOpen := 0 }).2
      e (by decide) rfl rfl rfl rfl).1 rfl).2
  · rw [engine_reaches_phase (c10EnvDirsync e e') "a" "m"
      feature_state_t.FEATURE_ENABLED 0 [] 0 (by decide) rfl rfl hov]
    exact ((phase_sync_errno (c10EnvDirsync e e') "a" _
      (smartlog_timestamp_ns (c10EnvDirsync e e')
        { fs := [], errno := errnoNoent, openCnt := 0, maxOpen := 0 }).2
      e (by decide) rfl rfl rfl rfl).2 rfl rfl (by decide)).1
  · rw [engine_reaches_phase (c10EnvDirsync e e') "a" "m"
      feature_state_t.FEATURE_ENABLED 0 [] 0 (by decide) rfl rfl hov]
    exact ((phase_sync_errno (c10EnvDirsync e e') "a" _
      (smartlog_timestamp_ns (c10EnvDirsync e e')
        { fs := [], errno := errnoNoent, openCnt := 0, maxOpen := 0 }).2
      e (by decide) rfl rfl rfl rfl).2 rfl rfl (by decide)).2

end Smartlog
